import Mathlib

set_option linter.unusedVariables false

/-!
Verification development for the cdc-file-transfer repository.

The repository sources at hand are `cdc_rsync_cli/params_test.cc`,
`cdc_rsync/cdc_rsync_client.h`, `common/port_manager.h`,
`common/remote_util_test.cc` and
`cdc_stream/local_assets_stream_manager_client.cc`.  The implementation
files (`params.cc`, `port_manager.cc`, `remote_util.cc`,
`cdc_rsync_client.cc`) are not part of the source tree, so the models
below are built from the specification (`spec.md`) together with the
declarations and the unit tests that are present, as documented on each
definition.

Command-line arguments are modelled as lists of characters
(`List Char`), which is the shallow embedding of the C `char*` argument
vector; the file system consulted by `--files-from` and friends is an
explicit function from file names to the optional list of lines of the
file.
-/

/-! ### CLI parameter parsing (cdc_rsync_cli/params)

Modelled from the spec: the implementation `cdc_rsync_cli/params.cc`
(function `cdc_ft::params::Parse`) is missing from the source tree; only
its unit tests `cdc_rsync_cli/params_test.cc` are present.  The model
follows §6 of the spec ("CLI surface", "Options") and reproduces the
behaviour the unit tests pin down: option syntax `--name=value`,
`--name value`, long flags, combined single-letter flags, the usage
errors for unknown options and for missing values, the documented
defaults (compress level 6, connection timeout 10), the
delete-requires-recursive gate, the compress-level bounds 1..22, the
ip-requires-port gate, and the `--files-from` handling (implied
`--relative`, failure on an empty file). -/

/-- Filter rule type, from `FilterRule::Type` used in the params test. -/
inductive FilterRuleType where
  | kInclude
  | kExclude
deriving DecidableEq, Repr

/-- An include/exclude filter rule, from `FilterRule` in the params test. -/
structure FilterRule where
  type : FilterRuleType
  pattern : List Char
deriving DecidableEq, Repr

/-- Modelled from the spec: the options struct of §6, with the fields read
by `params_test.cc` (`ip`, `port`, `delete_`, `recursive`, `verbosity`,
`quiet`, `whole_file`, `relative`, `compress`, `checksum`, `dry_run`,
`existing`, `json`, `compress_level`, `connection_timeout_sec`,
`copy_dest`). -/
structure Options where
  ip : Option (List Char)
  port : Nat
  delete_ : Bool
  recursive : Bool
  verbosity : Nat
  quiet : Bool
  whole_file : Bool
  relative : Bool
  compress : Bool
  checksum : Bool
  dry_run : Bool
  existing : Bool
  json : Bool
  compress_level : Int
  connection_timeout_sec : Int
  copy_dest : Option (List Char)
deriving DecidableEq, Repr

/-- Smallest permitted zstd compression level (`Options::kMinCompressLevel`,
spec §6: `compress_level` (1-22)). -/
def Options.kMinCompressLevel : Int := 1

/-- Largest permitted zstd compression level (`Options::kMaxCompressLevel`,
spec §6: `compress_level` (1-22)). -/
def Options.kMaxCompressLevel : Int := 22

/-- Default option values asserted by `ParamsTest.ParseSucceedsDefaults`:
compress level 6 (spec §4.B: "Zstandard at configurable level 1-22,
default 6") and connection timeout 10 (spec §4.G: "A configurable
connection timeout (default 10s)"); everything else off. -/
def defaultOptions : Options where
  ip := none
  port := 0
  delete_ := false
  recursive := false
  verbosity := 0
  quiet := false
  whole_file := false
  relative := false
  compress := false
  checksum := false
  dry_run := false
  existing := false
  json := false
  compress_level := 6
  connection_timeout_sec := 10
  copy_dest := none

/-- The result of a successful parse, from `Parameters` in the params
test: options, filter rules, the optional sources dir, the source list
and the destination. -/
structure Parameters where
  options : Options
  filter_rules : List FilterRule
  sources_dir : List Char
  sources : List (List Char)
  destination : List Char
deriving DecidableEq, Repr

/-- Outcome of a failed parse: a usage error with a message printed to
stderr, or the silent failure after `--help`/`-h`
(`ParamsTest.ParseFailsWithHelpOption` expects no error output). -/
inductive ParseError where
  | usage (message : String)
  | help
deriving DecidableEq, Repr

/-- Intermediate state while scanning the argument vector. -/
structure ScanState where
  options : Options
  filter_rules : List FilterRule
  files_from : Option (List Char)
  files_from_sources : List (List Char)
  positionals : List (List Char)
  help : Bool
deriving DecidableEq, Repr

/-- Initial scan state. -/
def initScanState : ScanState where
  options := defaultOptions
  filter_rules := []
  files_from := none
  files_from_sources := []
  positionals := []
  help := false

/-- The file system consulted by `--files-from`, `--include-from` and
`--exclude-from`: maps a file name to the list of its lines, or `none`
when the file cannot be read. -/
abbrev FileSys := List Char → Option (List (List Char))

/-- Decimal parse of a character list, `none` when empty or non-numeric. -/
def parseNatL (s : List Char) : Option Nat :=
  if s ≠ [] ∧ s.all Char.isDigit then
    some (s.foldl (fun n c => n * 10 + (c.toNat - 48)) 0)
  else none

/-- Signed decimal parse of a character list. -/
def parseIntL : List Char → Option Int
  | [] => none
  | c :: rest =>
    if c = '-' then (parseNatL rest).map (fun n => -(n : Int))
    else (parseNatL (c :: rest)).map (fun n => (n : Int))

/-- Splits `name=value` at the first `=`; the second component is `none`
when there is no `=`. -/
def splitValue : List Char → List Char × Option (List Char)
  | [] => ([], none)
  | c :: rest =>
    if c = '=' then ([], some rest)
    else
      let r := splitValue rest
      (c :: r.1, r.2)

/-- Long option names that are flags (take no value), per the tests
`ParseSuccessedsWithMultipleLongKeyConsumedOptions` and
`ParseFailsWithHelpOption`. -/
def isFlagName (name : List Char) : Bool :=
  name = ['r', 'e', 'c', 'u', 'r', 's', 'i', 'v', 'e'] ||
  name = ['v', 'e', 'r', 'b', 'o', 's', 'i', 't', 'y'] ||
  name = ['q', 'u', 'i', 'e', 't'] ||
  name = ['w', 'h', 'o', 'l', 'e', '-', 'f', 'i', 'l', 'e'] ||
  name = ['c', 'o', 'm', 'p', 'r', 'e', 's', 's'] ||
  name = ['r', 'e', 'l', 'a', 't', 'i', 'v', 'e'] ||
  name = ['d', 'e', 'l', 'e', 't', 'e'] ||
  name = ['c', 'h', 'e', 'c', 'k', 's', 'u', 'm'] ||
  name = ['d', 'r', 'y', '-', 'r', 'u', 'n'] ||
  name = ['e', 'x', 'i', 's', 't', 'i', 'n', 'g'] ||
  name = ['j', 's', 'o', 'n'] ||
  name = ['h', 'e', 'l', 'p']

/-- Long option names that require a value, per the params tests and the
spec's CLI surface (`--ip`, `--port`, `--include`, `--exclude`,
`--include-from FILE`, `--exclude-from FILE`, `--files-from FILE`,
`--copy-dest DIR`, `--contimeout SEC`, `--compress-level`). -/
def isValueOptionName (name : List Char) : Bool :=
  name = ['i', 'p'] ||
  name = ['p', 'o', 'r', 't'] ||
  name = ['c', 'o', 'n', 't', 'i', 'm', 'e', 'o', 'u', 't'] ||
  name = ['c', 'o', 'm', 'p', 'r', 'e', 's', 's', '-', 'l', 'e', 'v', 'e', 'l'] ||
  name = ['c', 'o', 'p', 'y', '-', 'd', 'e', 's', 't'] ||
  name = ['i', 'n', 'c', 'l', 'u', 'd', 'e'] ||
  name = ['e', 'x', 'c', 'l', 'u', 'd', 'e'] ||
  name = ['i', 'n', 'c', 'l', 'u', 'd', 'e', '-', 'f', 'r', 'o', 'm'] ||
  name = ['e', 'x', 'c', 'l', 'u', 'd', 'e', '-', 'f', 'r', 'o', 'm'] ||
  name = ['f', 'i', 'l', 'e', 's', '-', 'f', 'r', 'o', 'm']

/-- Applies a long flag option to the scan state.  `--verbosity`
increments the verbosity, matching `EXPECT_EQ(parameters_.options.verbosity, 1)`
after a single `--verbosity`. -/
def applyFlag (st : ScanState) (name : List Char) : ScanState :=
  if name = ['r', 'e', 'c', 'u', 'r', 's', 'i', 'v', 'e'] then
    { st with options := { st.options with recursive := true } }
  else if name = ['v', 'e', 'r', 'b', 'o', 's', 'i', 't', 'y'] then
    { st with options := { st.options with verbosity := st.options.verbosity + 1 } }
  else if name = ['q', 'u', 'i', 'e', 't'] then
    { st with options := { st.options with quiet := true } }
  else if name = ['w', 'h', 'o', 'l', 'e', '-', 'f', 'i', 'l', 'e'] then
    { st with options := { st.options with whole_file := true } }
  else if name = ['c', 'o', 'm', 'p', 'r', 'e', 's', 's'] then
    { st with options := { st.options with compress := true } }
  else if name = ['r', 'e', 'l', 'a', 't', 'i', 'v', 'e'] then
    { st with options := { st.options with relative := true } }
  else if name = ['d', 'e', 'l', 'e', 't', 'e'] then
    { st with options := { st.options with delete_ := true } }
  else if name = ['c', 'h', 'e', 'c', 'k', 's', 'u', 'm'] then
    { st with options := { st.options with checksum := true } }
  else if name = ['d', 'r', 'y', '-', 'r', 'u', 'n'] then
    { st with options := { st.options with dry_run := true } }
  else if name = ['e', 'x', 'i', 's', 't', 'i', 'n', 'g'] then
    { st with options := { st.options with existing := true } }
  else if name = ['j', 's', 'o', 'n'] then
    { st with options := { st.options with json := true } }
  else if name = ['h', 'e', 'l', 'p'] then
    { st with help := true }
  else st

/-- Usage message for an option missing its value, from
`NeedsValueError` in the params test: `Option '%s' needs a value`. -/
def needsValueMsg (name : List Char) : String :=
  "Option '" ++ String.mk name ++ "' needs a value"

/-- Usage message for an unknown long option, from
`ParamsTest.ParseFailsOnUnknownKeyValue`. -/
def unknownLongOptionMsg (name : List Char) : String :=
  "Unknown option: '" ++ String.mk name ++ "'"

/-- Usage message for an unknown single-letter option, from
`ParamsTest.ParseFailsOnMultipleLetterKeyConsumedOptionsWithUnsupportedOne`:
`Unknown option: 'a'`. -/
def unknownShortOptionMsg (c : Char) : String :=
  "Unknown option: '" ++ String.mk [c] ++ "'"

/-- Usage message when `--delete` is given without `--recursive`, from
`ParamsTest.ParseFailsOnDeleteNeedsRecursive` (spec §8 invariant 7:
"no file is deleted unless both `recursive` and `delete_extras` are
set"). -/
def deleteNeedsRecursiveMsg : String :=
  "--delete does not work without --recursive (-r)"

/-- Usage message for an out-of-bounds compression level, from
`ParamsTest.ParseChecksCompressLevel`. -/
def compressLevelBoundsMsg : String :=
  "--compress_level must be between 1 and 22"

/-- Usage message when `--ip` is given without a usable `--port`, from
`ParamsTest.ParseFailsOnGameletIpNeedsPort`. -/
def portNeedsValidPortMsg : String :=
  "--port must specify a valid port"

/-- Usage message when the `--files-from` file has no entries, from
`ParamsTest.FilesFrom_EmptyFile_WithoutSourceArg`: the message names the
file and states that the `--files-from` option is empty. -/
def filesFromEmptyMsg (file : List Char) : String :=
  "File '" ++ String.mk file ++ "' passed to --files-from option is empty"

/-- Usage message when a file given to `--files-from`, `--include-from`
or `--exclude-from` cannot be read. -/
def cannotReadFileMsg (file : List Char) : String :=
  "Failed to read file '" ++ String.mk file ++ "'"

/-- Applies one single-letter flag, per
`ParamsTest.ParseSuccessedsWithMultipleLetterKeyConsumed` (`-rvqWRzcn`)
and `ParseFailsWithHelpOption` (`-h`); an unsupported letter is a usage
error. -/
def applyShortFlag (st : ScanState) (c : Char) : Except ParseError ScanState :=
  if c = 'r' then .ok { st with options := { st.options with recursive := true } }
  else if c = 'v' then
    .ok { st with options := { st.options with verbosity := st.options.verbosity + 1 } }
  else if c = 'q' then .ok { st with options := { st.options with quiet := true } }
  else if c = 'W' then .ok { st with options := { st.options with whole_file := true } }
  else if c = 'R' then .ok { st with options := { st.options with relative := true } }
  else if c = 'z' then .ok { st with options := { st.options with compress := true } }
  else if c = 'c' then .ok { st with options := { st.options with checksum := true } }
  else if c = 'n' then .ok { st with options := { st.options with dry_run := true } }
  else if c = 'h' then .ok { st with help := true }
  else .error (.usage (unknownShortOptionMsg c))

/-- Applies a run of combined single-letter flags (e.g. `-rvqWRzcn`). -/
def applyShortFlags (st : ScanState) : List Char → Except ParseError ScanState
  | [] => .ok st
  | c :: cs =>
    match applyShortFlag st c with
    | .error e => .error e
    | .ok st2 => applyShortFlags st2 cs

/-- Lines of a filter file that contribute rules: non-empty ones. -/
def nonEmptyLines (lines : List (List Char)) : List (List Char) :=
  lines.filter (fun l => !l.isEmpty)

/-- Applies a long option that carries a value.  Numeric values follow
the model choice that a non-numeric `--port` value leaves the invalid
default 0 (caught by the later "--port must specify a valid port"
check), while non-numeric `--contimeout`/`--compress-level` values keep
the previous value; the claims only exercise numeric values. -/
def applyValueOption (fs : FileSys) (st : ScanState) (name value : List Char) :
    Except ParseError ScanState :=
  if name = ['i', 'p'] then
    .ok { st with options := { st.options with ip := some value } }
  else if name = ['p', 'o', 'r', 't'] then
    .ok { st with options := { st.options with port := (parseNatL value).getD 0 } }
  else if name = ['c', 'o', 'n', 't', 'i', 'm', 'e', 'o', 'u', 't'] then
    .ok { st with options :=
      { st.options with connection_timeout_sec :=
          (parseIntL value).getD st.options.connection_timeout_sec } }
  else if name = ['c', 'o', 'm', 'p', 'r', 'e', 's', 's', '-', 'l', 'e', 'v', 'e', 'l'] then
    .ok { st with options :=
      { st.options with compress_level :=
          (parseIntL value).getD st.options.compress_level } }
  else if name = ['c', 'o', 'p', 'y', '-', 'd', 'e', 's', 't'] then
    .ok { st with options := { st.options with copy_dest := some value } }
  else if name = ['i', 'n', 'c', 'l', 'u', 'd', 'e'] then
    .ok { st with filter_rules := st.filter_rules ++ [⟨.kInclude, value⟩] }
  else if name = ['e', 'x', 'c', 'l', 'u', 'd', 'e'] then
    .ok { st with filter_rules := st.filter_rules ++ [⟨.kExclude, value⟩] }
  else if name = ['i', 'n', 'c', 'l', 'u', 'd', 'e', '-', 'f', 'r', 'o', 'm'] then
    match fs value with
    | none => .error (.usage (cannotReadFileMsg value))
    | some lines =>
      .ok { st with filter_rules :=
        st.filter_rules ++ (nonEmptyLines lines).map (fun l => ⟨.kInclude, l⟩) }
  else if name = ['e', 'x', 'c', 'l', 'u', 'd', 'e', '-', 'f', 'r', 'o', 'm'] then
    match fs value with
    | none => .error (.usage (cannotReadFileMsg value))
    | some lines =>
      .ok { st with filter_rules :=
        st.filter_rules ++ (nonEmptyLines lines).map (fun l => ⟨.kExclude, l⟩) }
  else if name = ['f', 'i', 'l', 'e', 's', '-', 'f', 'r', 'o', 'm'] then
    match fs value with
    | none => .error (.usage (cannotReadFileMsg value))
    | some lines =>
      if nonEmptyLines lines = [] then .error (.usage (filesFromEmptyMsg value))
      else .ok { st with files_from := some value,
                         files_from_sources := nonEmptyLines lines }
  else .error (.usage (unknownLongOptionMsg name))

/-- Scans the argument vector (without the program name), accumulating
the scan state.  `--name=value`, `--name value`, long flags, runs of
single-letter flags and positionals are distinguished as in the params
tests; `--name=` and a trailing `--name` without a value produce the
"needs a value" usage error.  `pending` holds a value option name whose
value is the next argument (`--name value` syntax). -/
def scanArgs (fs : FileSys) :
    List (List Char) → ScanState → Option (List Char) → Except ParseError ScanState
  | [], st, pending =>
    match pending with
    | some name => .error (.usage (needsValueMsg name))
    | none => .ok st
  | a :: rest, st, pending =>
    match pending with
    | some name =>
      match applyValueOption fs st name a with
      | .error e => .error e
      | .ok st2 => scanArgs fs rest st2 none
    | none =>
      match a with
      | c1 :: tail1 =>
        if c1 = '-' then
          match tail1 with
          | c2 :: tail2 =>
            if c2 = '-' then
              match splitValue tail2 with
              | (name, some value) =>
                if isValueOptionName name then
                  if value = [] then .error (.usage (needsValueMsg name))
                  else
                    match applyValueOption fs st name value with
                    | .error e => .error e
                    | .ok st2 => scanArgs fs rest st2 none
                else if isFlagName name then scanArgs fs rest (applyFlag st name) none
                else .error (.usage (unknownLongOptionMsg name))
              | (name, none) =>
                if isFlagName name then scanArgs fs rest (applyFlag st name) none
                else if isValueOptionName name then scanArgs fs rest st (some name)
                else .error (.usage (unknownLongOptionMsg name))
            else
              match applyShortFlags st (c2 :: tail2) with
              | .error e => .error e
              | .ok st2 => scanArgs fs rest st2 none
          | [] => scanArgs fs rest { st with positionals := st.positionals ++ [a] } none
        else scanArgs fs rest { st with positionals := st.positionals ++ [a] } none
      | [] => scanArgs fs rest { st with positionals := st.positionals ++ [a] } none

/-- Splits a non-empty positional list into sources and the trailing
destination. -/
def splitLast : List (List Char) → List (List Char) × List Char
  | [] => ([], [])
  | [a] => ([], a)
  | a :: b :: rest =>
    let r := splitLast (b :: rest)
    (a :: r.1, r.2)

/-- Appends a path separator when the directory does not already end in
one (`path::EnsureEndsWithPathSeparator` used by the params test for the
`--files-from` sources dir). -/
def ensureEndsWithPathSeparator (d : List Char) : List Char :=
  if d.getLast? = some '\\' ∨ d.getLast? = some '/' then d else d ++ ['\\']

/-- Validations performed after scanning, in the order pinned down by the
params tests: `--help` wins silently; `--delete` without `--recursive`
is a usage error; the compress level must lie in
[`Options.kMinCompressLevel`, `Options.kMaxCompressLevel`]; `--ip`
requires a valid (non-zero) `--port`; then the positionals are split
into sources and destination, with `--files-from` supplying the sources
(and implying `--relative`) so that the positionals are only the
optional sources dir and the destination. -/
def validate (st : ScanState) : Except ParseError Parameters :=
  if st.help then .error .help
  else if st.options.delete_ && !st.options.recursive then
    .error (.usage deleteNeedsRecursiveMsg)
  else if st.options.compress_level < Options.kMinCompressLevel ∨
      Options.kMaxCompressLevel < st.options.compress_level then
    .error (.usage compressLevelBoundsMsg)
  else if st.options.ip.isSome && st.options.port == 0 then
    .error (.usage portNeedsValidPortMsg)
  else
    match st.files_from with
    | some _ =>
      match st.positionals with
      | [] => .error (.usage "Missing destination")
      | [dst] =>
        .ok ⟨{ st.options with relative := true }, st.filter_rules, [],
             st.files_from_sources, dst⟩
      | [dir, dst] =>
        .ok ⟨{ st.options with relative := true }, st.filter_rules,
             ensureEndsWithPathSeparator dir, st.files_from_sources, dst⟩
      | _ => .error (.usage "Too many arguments")
    | none =>
      match st.positionals with
      | [] => .error (.usage "Missing source")
      | [_] => .error (.usage "Missing destination")
      | ps =>
        let r := splitLast ps
        .ok ⟨st.options, st.filter_rules, [], r.1, r.2⟩

/-- Modelled from the spec: `cdc_ft::params::Parse` of
`cdc_rsync_cli/params.cc` (missing from the source tree).  The first
argument vector entry is the program name and is skipped; the rest is
scanned and validated.  A `.ok` result is the situation in which the
sync run is started; any `.error` result means the run is not
started. -/
def Parse (fs : FileSys) (args : List (List Char)) : Except ParseError Parameters :=
  match args with
  | [] => .error (.usage "Missing source")
  | _prog :: rest =>
    match scanArgs fs rest initScanState none with
    | .error e => .error e
    | .ok st => validate st

/-- A file system with no readable files, for argument vectors that do
not use `--files-from`/`--include-from`/`--exclude-from`. -/
def fsEmpty : FileSys := fun _ => none

/-! ### Port manager (common/port_manager)

Modelled from the spec: the implementation `common/port_manager.cc` is
missing from the source tree; only the declaration
`common/port_manager.h` is present.  Spec §9 says to "model it as an
external collaborator with `reserve(range) -> port | ResourceExhausted`
and `release(port)`"; the header adds the range `[first_port,
last_port]`, the `reserved_ports_` member, the automatic release upon
destruction, and the error contract of `ReservePort` (DeadlineExceeded
when the remote check times out, ResourceExhausted when no port is
available).  Availability of a port locally and remotely is abstracted
into two predicates (standing for the two netstat probes), and the
remote probe exceeding its timeout into a boolean. -/

/-- State of a `PortManager` instance: the constructor range and the
`reserved_ports_` set (modelled as a list). -/
structure PortManagerState where
  first_port : Nat
  last_port : Nat
  reserved_ports : List Nat
deriving DecidableEq, Repr

/-- Result of `PortManager::ReservePort`, mirroring
`absl::StatusOr<int>` restricted to the statuses the header documents. -/
inductive ReserveResult where
  | port (p : Nat)
  | resourceExhausted
  | deadlineExceeded
deriving DecidableEq, Repr

/-- The ports of the constructor range `[first_port, last_port]` that are
available: free locally and, when `check_remote` is set, also free
remotely. -/
def availablePorts (st : PortManagerState) (check_remote : Bool)
    (localFree remoteFree : Nat → Bool) : List Nat :=
  (List.range' st.first_port (st.last_port + 1 - st.first_port)).filter
    (fun p => localFree p && (!check_remote || remoteFree p))

/-- Modelled from the spec: `PortManager::ReservePort`.  When
`check_remote` is set and the remote availability probe exceeds its
timeout, the result is DeadlineExceeded; when no port of the range is
available, ResourceExhausted; otherwise the first available port is
reserved, i.e. recorded in `reserved_ports_` and returned. -/
def reservePort (st : PortManagerState) (check_remote : Bool)
    (localFree remoteFree : Nat → Bool) (remoteTimedOut : Bool) :
    PortManagerState × ReserveResult :=
  if check_remote && remoteTimedOut then (st, .deadlineExceeded)
  else
    match availablePorts st check_remote localFree remoteFree with
    | [] => (st, .resourceExhausted)
    | p :: _ => ({ st with reserved_ports := p :: st.reserved_ports }, .port p)

/-- Modelled from the spec: `PortManager::ReleasePort` removes the port
from `reserved_ports_`. -/
def releasePort (st : PortManagerState) (port : Nat) : PortManagerState :=
  { st with reserved_ports := st.reserved_ports.filter (fun q => q ≠ port) }

/-- Modelled from the spec: `PortManager::~PortManager`.  The header
states "The port is released automatically upon destruction if
ReleasePort() is not called explicitly", so destruction releases every
port still in `reserved_ports_`. -/
def destroyPortManager (st : PortManagerState) : PortManagerState :=
  { st with reserved_ports := [] }

/-! ### Remote worker bootstrap (cdc_rsync/cdc_rsync_client)

Modelled from the spec: the implementation `cdc_rsync/cdc_rsync_client.cc`
is missing from the source tree; only the declaration
`cdc_rsync/cdc_rsync_client.h` is present.  The header documents
`StartServer` as "If the method returns a status with tag
|kTagDeployServer|, Run() calls DeployServer() and tries again", and
spec §4.G step 3 says: on "binary missing or version mismatch" enter the
deploy sub-phase, copy the worker binary, "then retry start once.  A
second failure is fatal."  The outcomes of the successive `StartServer`
attempts are abstracted into a function from the attempt index to a
status, and `DeployServer`'s outcome into a boolean. -/

/-- Outcome of one `StartServer` attempt: success, or a failed status
that either carries the `kTagDeployServer` tag (worker binary missing or
version mismatch) or does not. -/
inductive StartStatus where
  | ok
  | err (hasDeployTag : Bool)
deriving DecidableEq, Repr

/-- Trace of the bootstrap portion of `Run()`: how many times
`DeployServer` was called, how many times `StartServer` was attempted,
and whether the bootstrap succeeded. -/
structure BootOutcome where
  deploys : Nat
  startAttempts : Nat
  success : Bool
deriving DecidableEq, Repr

/-- Modelled from the spec: the deploy-and-retry logic of
`GgpRsyncClient::Run` around `StartServer`.  `start n` is the status of
the `n`-th start attempt and `deployOk` the outcome of `DeployServer`.
A first start failing with the deploy tag triggers one deploy and one
retried start; any other failure, and a failure of the retried start,
is fatal with no further deploy or retry. -/
def runBootstrap (start : Nat → StartStatus) (deployOk : Bool) : BootOutcome :=
  match start 0 with
  | .ok => { deploys := 0, startAttempts := 1, success := true }
  | .err tag =>
    if tag then
      if deployOk then
        match start 1 with
        | .ok => { deploys := 1, startAttempts := 2, success := true }
        | .err _ => { deploys := 1, startAttempts := 2, success := false }
      else { deploys := 1, startAttempts := 1, success := false }
    else { deploys := 0, startAttempts := 1, success := false }

/-! ### Ssh command construction (common/remote_util)

Modelled from the spec: the implementation `common/remote_util.cc` is
missing from the source tree; only its test `common/remote_util_test.cc`
is present.  Spec §4.G step 2: "Launch transport (ssh) with port
forwarding to remote loopback port".  The test pins down the pieces the
built command must contain: the ssh executable, the `-p <port>`
argument, the quoted `user@host`, and the forwarding argument
`-L<local>:localhost:<remote>` (regular) or
`-R<remote>:localhost:<local>` (reverse).  The command is modelled as
the list of these pieces, each a string. -/

/-- Decimal rendering of a number, as it appears inside the ssh
arguments. -/
def natToChars (n : Nat) : List Char :=
  Nat.toDigits 10 n

/-- The port forwarding argument of the ssh invocation:
`-L<local>:localhost:<remote>` for regular forwarding,
`-R<remote>:localhost:<local>` for reverse forwarding, per
`kPortForwardingArg`/`kReversePortForwardingArg` in the remote util
test. -/
def portForwardingArg (local_port remote_port : Nat) (reverse : Bool) : String :=
  if reverse then
    "-R" ++ String.mk (natToChars remote_port) ++ ":localhost:" ++
      String.mk (natToChars local_port)
  else
    "-L" ++ String.mk (natToChars local_port) ++ ":localhost:" ++
      String.mk (natToChars remote_port)

/-- The quoted `user@host` argument (`kUserHostArg` in the remote util
test wraps `user@example.com` in double quotes). -/
def quotedUserHost (userHost : String) : String :=
  "\"" ++ userHost ++ "\""

/-- Modelled from the spec: `RemoteUtil::BuildProcessStartInfoForSshPortForward`.
The pieces of the built ssh command: the ssh executable, the ssh `-p`
port argument, the forwarding argument and the quoted user@host. -/
def buildProcessStartInfoForSshPortForward (userHost : String) (ssh_port : Nat)
    (local_port remote_port : Nat) (reverse : Bool) : List String :=
  ["ssh",
   "-p " ++ String.mk (natToChars ssh_port),
   portForwardingArg local_port remote_port reverse,
   quotedUserHost userHost]

/-- A start-attempt history whose first attempt reports the deploy tag
and whose retried attempt succeeds, used to witness `claim_C2`. -/
def c2Start : Nat → StartStatus := fun n => if n = 0 then .err true else .ok

/-- A port manager over the range [44433, 44442] with every port free
locally and remotely, used to witness `claim_C3`. -/
def c3State : PortManagerState := { first_port := 44433, last_port := 44442, reserved_ports := [] }

/-- A small argument vector with `--ip=1 --port=1 -r --delete s d`, on
which parsing succeeds with both `recursive` and `delete_` set, used to
witness `claim_C1`. -/
def c1OkArgv : List (List Char) :=
  [['x'], ['-', '-', 'i', 'p', '=', '1'], ['-', '-', 'p', 'o', 'r', 't', '=', '1'],
   ['-', 'r'], ['-', '-', 'd', 'e', 'l', 'e', 't', 'e'], ['s'], ['d']]

/-- The parse result of `c1OkArgv`. -/
def c1OkParams : Parameters :=
  { options := { defaultOptions with
                   ip := some ['1'], port := 1,
                   recursive := true, delete_ := true },
    filter_rules := [], sources_dir := [], sources := [['s']],
    destination := ['d'] }

/-- The argument vector of `ParamsTest.ParseChecksCompressLevel` with a
symbolic `--compress-level` value. -/
def c6Argv (vs : List Char) : List (List Char) :=
  ["cdc_rsync.exe".data,
   ['-', '-', 'i', 'p', '=', '1', '.', '2', '.', '3', '.', '4'],
   ['-', '-', 'p', 'o', 'r', 't', '=', '1', '2', '3', '4'],
   ['-', '-', 'c', 'o', 'm', 'p', 'r', 'e', 's', 's', '-', 'l', 'e', 'v', 'e', 'l', '='] ++ vs,
   ['s', 'r', 'c'], ['d', 's', 't']]

/-- The argument vector of the `ParamsTest.FilesFrom_*` tests with a
symbolic `--files-from` file name and no source argument. -/
def c9Argv (f : List Char) : List (List Char) :=
  ["cdc_rsync.exe".data,
   ['-', '-', 'i', 'p', '=', '1', '.', '2', '.', '3', '.', '4'],
   ['-', '-', 'p', 'o', 'r', 't', '=', '1', '2', '3', '4'],
   ['-', '-', 'f', 'i', 'l', 'e', 's', '-', 'f', 'r', 'o', 'm'],
   f, ['d', 's', 't']]

/-- A file system in which `ff` holds one non-empty line and `ee` is an
empty file, used to witness `claim_C9`. -/
def c9Fs : FileSys := fun g =>
  if g = ['f', 'f'] then some [['a']]
  else if g = ['e', 'e'] then some [] else none

/-- Decidable equality of parse results, so that concrete runs of the
model can be checked by `decide`. -/
instance {ε α : Type} [DecidableEq ε] [DecidableEq α] : DecidableEq (Except ε α) := fun x y =>
  match x, y with
  | .ok a, .ok b =>
    if h : a = b then isTrue (by rw [h]) else isFalse (fun hh => h (Except.ok.inj hh))
  | .error a, .error b =>
    if h : a = b then isTrue (by rw [h]) else isFalse (fun hh => h (Except.error.inj hh))
  | .ok _, .error _ => isFalse (fun hh => Except.noConfusion hh)
  | .error _, .ok _ => isFalse (fun hh => Except.noConfusion hh)

/-- C2: when the first start of the remote worker fails with the
kTagDeployServer status, the client deploys the worker binary exactly
once and retries the start exactly once; the run succeeds exactly when
the retried start succeeds, and a second failure is fatal with no
further deploy or retry.  A start failure with any other status
triggers no deploy. -/
theorem claim_C2 : ∀ (start : Nat → StartStatus) (deployOk : Bool),
    (start 0 = .err true →
      (runBootstrap start deployOk).deploys = 1 ∧
      (deployOk = true →
        (runBootstrap start deployOk).startAttempts = 2 ∧
        ((runBootstrap start deployOk).success = true ↔ start 1 = .ok))) ∧
    (start 0 = .err false →
      (runBootstrap start deployOk).deploys = 0 ∧
      (runBootstrap start deployOk).startAttempts = 1 ∧
      (runBootstrap start deployOk).success = false) ∧
    (start 0 = .ok →
      (runBootstrap start deployOk).deploys = 0 ∧
      (runBootstrap start deployOk).startAttempts = 1 ∧
      (runBootstrap start deployOk).success = true) := by
  intro start deployOk
  refine ⟨fun h0 => ?_, fun h0 => ?_, fun h0 => ?_⟩ <;>
    cases hd : deployOk <;>
      cases h1 : start 1 <;>
        simp_all [runBootstrap]


theorem claim_C2_witness :
    (runBootstrap c2Start true).deploys = 1 ∧
    (runBootstrap c2Start true).startAttempts = 2 ∧
    (runBootstrap c2Start true).success = true := by
  have h := (claim_C2 c2Start true).1 (by decide)
  have h2 := h.2 rfl
  exact ⟨h.1, h2.1, h2.2.mpr (by decide)⟩

/-- C3: `PortManager::ReservePort` returns DeadlineExceeded exactly in
the timed-out remote check (impossible when `check_remote` is false),
ResourceExhausted when no port of the constructor range is available,
and otherwise reserves the first available port; any returned port lies
in `[first_port, last_port]`. -/
theorem claim_C3 : ∀ (st : PortManagerState) (cr : Bool) (lf rf : Nat → Bool) (t : Bool),
    (cr = true → t = true →
      (reservePort st cr lf rf t).2 = .deadlineExceeded) ∧
    (cr = false → (reservePort st cr lf rf t).2 ≠ .deadlineExceeded) ∧
    (¬(cr = true ∧ t = true) → availablePorts st cr lf rf = [] →
      (reservePort st cr lf rf t).2 = .resourceExhausted) ∧
    (∀ p ps, ¬(cr = true ∧ t = true) → availablePorts st cr lf rf = p :: ps →
      (reservePort st cr lf rf t).2 = .port p) ∧
    (∀ p, (reservePort st cr lf rf t).2 = .port p →
      st.first_port ≤ p ∧ p ≤ st.last_port) := by
  intro st cr lf rf t
  refine ⟨fun hc ht => ?_, fun hc => ?_, fun hct hav => ?_, fun p ps hct hav => ?_,
    fun p hp => ?_⟩
  · simp [reservePort, hc, ht]
  · subst hc
    simp only [reservePort, Bool.false_and, Bool.false_eq_true, if_false]
    cases availablePorts st false lf rf <;> simp
  · have hc : (cr && t) = false := by
      cases cr <;> cases t <;> simp_all
    simp [reservePort, hc, hav]
  · have hc : (cr && t) = false := by
      cases cr <;> cases t <;> simp_all
    simp [reservePort, hc, hav]
  · by_cases hc : (cr && t) = true
    · simp [reservePort, hc] at hp
    · rw [Bool.not_eq_true] at hc
      simp only [reservePort, hc, if_false] at hp
      rcases hav : availablePorts st cr lf rf with _ | ⟨q, qs⟩
      · rw [hav] at hp
        simp at hp
      · rw [hav] at hp
        simp at hp
        subst hp
        have hq : q ∈ availablePorts st cr lf rf := by
          rw [hav]; exact List.mem_cons_self q qs
        have hq2 : q ∈ List.range' st.first_port (st.last_port + 1 - st.first_port) :=
          List.mem_of_mem_filter hq
        rw [List.mem_range'_1] at hq2
        omega


theorem claim_C3_witness :
    (reservePort c3State true (fun _ => true) (fun _ => true) true).2 = .deadlineExceeded ∧
    (reservePort c3State false (fun _ => false) (fun _ => true) false).2 = .resourceExhausted ∧
    (reservePort c3State false (fun _ => true) (fun _ => true) false).2 = .port 44433 ∧
    (44433 ≤ 44433 ∧ 44433 ≤ 44442) := by
  refine ⟨(claim_C3 c3State true (fun _ => true) (fun _ => true) true).1 rfl rfl,
    (claim_C3 c3State false (fun _ => false) (fun _ => true) false).2.2.1 (by simp) (by decide),
    (claim_C3 c3State false (fun _ => true) (fun _ => true) false).2.2.2.1 44433
      (List.range' 44434 9) (by simp) (by decide),
    (claim_C3 c3State false (fun _ => true) (fun _ => true) false).2.2.2.2 44433 (by decide)⟩

/-- C4: a port successfully reserved by `PortManager::ReservePort` is
recorded in the `reserved_ports_` set of the resulting state; an
explicit `ReleasePort` removes it; and destruction of the manager
releases every port still reserved, so that no port remains held
afterwards. -/
theorem claim_C4 :
    (∀ (st : PortManagerState) (cr : Bool) (lf rf : Nat → Bool) (t : Bool)
        (st' : PortManagerState) (p : Nat),
      reservePort st cr lf rf t = (st', .port p) → p ∈ st'.reserved_ports) ∧
    (∀ (st : PortManagerState) (p : Nat), p ∉ (releasePort st p).reserved_ports) ∧
    (∀ st : PortManagerState, (destroyPortManager st).reserved_ports = []) := by
  refine ⟨fun st cr lf rf t st' p h => ?_, fun st p => ?_, fun st => rfl⟩
  · by_cases hc : (cr && t) = true
    · simp [reservePort, hc] at h
    · rw [Bool.not_eq_true] at hc
      simp only [reservePort, hc, if_false] at h
      rcases hav : availablePorts st cr lf rf with _ | ⟨q, qs⟩ <;> rw [hav] at h
      · simp at h
      · simp at h
        rw [← h.1, ← h.2]
        exact List.mem_cons_self q st.reserved_ports
  · intro hmem
    have := List.of_mem_filter hmem
    simp at this

theorem claim_C4_witness :
    (44433 ∈ (reservePort c3State false (fun _ => true) (fun _ => true) false).1.reserved_ports) ∧
    (44433 ∉ (releasePort c3State 44433).reserved_ports) ∧
    (destroyPortManager c3State).reserved_ports = [] :=
  ⟨claim_C4.1 c3State false (fun _ => true) (fun _ => true) false
      ((reservePort c3State false (fun _ => true) (fun _ => true) false).1) 44433 (by decide),
   claim_C4.2.1 c3State 44433,
   claim_C4.2.2 c3State⟩

/-- C7: for every local port L and remote port R, the built ssh
invocation contains the ssh executable, the `-p` port argument, the
quoted user@host and `-L<L>:localhost:<R>` with regular forwarding,
while with reverse forwarding it instead contains
`-R<R>:localhost:<L>`; at the ports of the remote util test the two
forwarding arguments are exactly `-L23456:localhost:34567` and
`-R34567:localhost:23456`. -/
theorem claim_C7 : (∀ (uh : String) (sp lp rp : Nat),
    ("ssh" ∈ buildProcessStartInfoForSshPortForward uh sp lp rp false ∧
     ("-p " ++ String.mk (natToChars sp)) ∈
       buildProcessStartInfoForSshPortForward uh sp lp rp false ∧
     quotedUserHost uh ∈ buildProcessStartInfoForSshPortForward uh sp lp rp false ∧
     ("-L" ++ String.mk (natToChars lp) ++ ":localhost:" ++ String.mk (natToChars rp)) ∈
       buildProcessStartInfoForSshPortForward uh sp lp rp false) ∧
    ("ssh" ∈ buildProcessStartInfoForSshPortForward uh sp lp rp true ∧
     ("-p " ++ String.mk (natToChars sp)) ∈
       buildProcessStartInfoForSshPortForward uh sp lp rp true ∧
     quotedUserHost uh ∈ buildProcessStartInfoForSshPortForward uh sp lp rp true ∧
     ("-R" ++ String.mk (natToChars rp) ++ ":localhost:" ++ String.mk (natToChars lp)) ∈
       buildProcessStartInfoForSshPortForward uh sp lp rp true)) ∧
    portForwardingArg 23456 34567 false = "-L23456:localhost:34567" ∧
    portForwardingArg 23456 34567 true = "-R34567:localhost:23456" := by
  refine ⟨fun uh sp lp rp => ⟨⟨?_, ?_, ?_, ?_⟩, ⟨?_, ?_, ?_, ?_⟩⟩, by decide, by decide⟩ <;>
    simp [buildProcessStartInfoForSshPortForward, portForwardingArg]

/-- Successful validation implies the two cross-option gates: `delete_`
only together with `recursive`, and an `ip` only together with a
non-zero `port`. -/
theorem validate_ok_gates (st : ScanState) (p : Parameters)
    (h : validate st = .ok p) :
    (p.options.delete_ = true → p.options.recursive = true) ∧
    (p.options.ip.isSome = true → p.options.port ≠ 0) := by
  unfold validate at h
  split at h
  · exact Except.noConfusion h
  · split at h
    · exact Except.noConfusion h
    · split at h
      · exact Except.noConfusion h
      · split at h
        · exact Except.noConfusion h
        · rename_i hhelp hdel hlvl hport
          split at h
          · split at h
            · exact Except.noConfusion h
            · cases h
              constructor
              · intro hd
                simp at hdel
                exact hdel hd
              · intro hi
                simp at hport
                exact hport hi
            · cases h
              constructor
              · intro hd
                simp at hdel
                exact hdel hd
              · intro hi
                simp at hport
                exact hport hi
            · exact Except.noConfusion h
          · split at h
            · exact Except.noConfusion h
            · exact Except.noConfusion h
            · cases h
              constructor
              · intro hd
                simp at hdel
                exact hdel hd
              · intro hi
                simp at hport
                exact hport hi

/-- A successful `Parse` run satisfies the cross-option gates. -/
theorem Parse_ok_gates (fs : FileSys) (args : List (List Char)) (p : Parameters)
    (h : Parse fs args = .ok p) :
    (p.options.delete_ = true → p.options.recursive = true) ∧
    (p.options.ip.isSome = true → p.options.port ≠ 0) := by
  cases args with
  | nil => simp [Parse] at h
  | cons prog rest =>
    simp only [Parse] at h
    cases hsc : scanArgs fs rest initScanState none with
    | error e => rw [hsc] at h; exact Except.noConfusion h
    | ok st => rw [hsc] at h; exact validate_ok_gates st p h

/-- C1: an argument vector with `--delete` set but `--recursive` unset
never yields a successful parse (so no sync run is started without both
options), and on the argument vector of
`ParamsTest.ParseFailsOnDeleteNeedsRecursive` the parse fails with
exactly the usage error that `--delete` does not work without
`--recursive`. -/
theorem claim_C1 :
    (∀ (fs : FileSys) (args : List (List Char)) (p : Parameters),
      Parse fs args = .ok p → p.options.delete_ = true → p.options.recursive = true) ∧
    Parse fsEmpty ["cdc_rsync.exe".data,
      ['-', '-', 'i', 'p', '=', '1', '.', '2', '.', '3', '.', '4'],
      ['-', '-', 'p', 'o', 'r', 't', '=', '1', '2', '3', '4'],
      ['-', '-', 'd', 'e', 'l', 'e', 't', 'e'],
      ['s', 'o', 'u', 'r', 'c', 'e'], ['d', 'e', 's', 't', 'i', 'n', 'a', 't', 'i', 'o', 'n']] =
      .error (.usage deleteNeedsRecursiveMsg) := by
  constructor
  · exact fun fs args p h => (Parse_ok_gates fs args p h).1
  · have hp1234 : parseNatL ['1', '2', '3', '4'] = some 1234 := by decide
    simp only [Parse]
    simp [scanArgs, splitValue, isValueOptionName, isFlagName, applyValueOption,
      applyFlag, validate, initScanState, defaultOptions, hp1234]



theorem claim_C1_witness :
    c1OkParams.options.delete_ = true ∧
    c1OkParams.options.recursive = true :=
  ⟨by decide,
   claim_C1.1 fsEmpty c1OkArgv c1OkParams (by decide) (by decide)⟩

/-- C10: supplying an `--ip` is never sufficient for a successful parse
without a non-zero `--port` (first conjunct, over every argument
vector), and an argument vector carrying `--ip=<addr>`, a source and a
destination but no `--port` fails with exactly the usage error that
`--port` must specify a valid port. -/
theorem claim_C10 :
    (∀ (fs : FileSys) (args : List (List Char)) (p : Parameters),
      Parse fs args = .ok p → p.options.ip.isSome = true → p.options.port ≠ 0) ∧
    (∀ (prog ip : List Char), ip ≠ [] →
      Parse fsEmpty [prog, ['-', '-', 'i', 'p', '='] ++ ip,
        ['s', 'o', 'u', 'r', 'c', 'e'], ['d', 'e', 's', 't']] =
        .error (.usage portNeedsValidPortMsg)) := by
  constructor
  · exact fun fs args p h => (Parse_ok_gates fs args p h).2
  · intro prog ip hip
    simp only [Parse]
    simp [scanArgs, splitValue, isValueOptionName, isFlagName, applyValueOption,
      applyFlag, validate, initScanState, defaultOptions, hip,
      Options.kMinCompressLevel, Options.kMaxCompressLevel]

theorem claim_C10_witness :
    Parse fsEmpty ["cdc_rsync.exe".data, ['-', '-', 'i', 'p', '='] ++ ['1'], ['s', 'o', 'u', 'r', 'c', 'e'], ['d', 's', 't']] = .error (.usage portNeedsValidPortMsg) ∧
    ({ options := { defaultOptions with ip := some ['1'], port := 1 }, filter_rules := [], sources_dir := [], sources := [['s']], destination := ['d'] } : Parameters).options.port ≠ 0 :=
  ⟨claim_C10.2 "cdc_rsync.exe".data ['1'] (by decide),
   claim_C10.1 fsEmpty [['x'], ['-', '-', 'i', 'p', '=', '1'], ['-', '-', 'p', 'o', 'r', 't', '=', '1'], ['s'], ['d']] { options := { defaultOptions with ip := some ['1'], port := 1 }, filter_rules := [], sources_dir := [], sources := [['s']], destination := ['d'] } (by decide) (by decide)⟩

/-- C5: an argument vector supplying only `--ip=<addr>`, `--port=<n>`
(with a valid, non-zero port number), a source and a destination parses
successfully into exactly the documented defaults: compress level 6,
connection timeout 10 s, verbosity 0, and `recursive`, `delete_`,
`quiet`, `whole_file`, `compress`, `checksum`, `dry_run` (and the
remaining flags) all false, as asserted by
`ParamsTest.ParseSucceedsDefaults`. -/
theorem claim_C5 : ∀ (prog ip ps stail dtail : List Char) (s0 d0 : Char) (n : Nat),
    ip ≠ [] → parseNatL ps = some n → 0 < n → s0 ≠ '-' → d0 ≠ '-' →
    Parse fsEmpty [prog, ['-', '-', 'i', 'p', '='] ++ ip,
      ['-', '-', 'p', 'o', 'r', 't', '='] ++ ps, s0 :: stail, d0 :: dtail] =
    .ok { options := { defaultOptions with ip := some ip, port := n },
          filter_rules := [], sources_dir := [], sources := [s0 :: stail],
          destination := d0 :: dtail } := by
  intro prog ip ps stail dtail s0 d0 n hip hps hn hs0 hd0
  have hps0 : ps ≠ [] := by
    intro he
    subst he
    simp [parseNatL] at hps
  have hn0 : n ≠ 0 := Nat.pos_iff_ne_zero.mp hn
  simp only [Parse]
  simp [scanArgs, splitValue, isValueOptionName, isFlagName, applyValueOption,
    validate, initScanState, defaultOptions, splitLast, hip, hps, hps0, hs0, hd0, hn0,
    Options.kMinCompressLevel, Options.kMaxCompressLevel]

theorem claim_C5_witness :
    Parse fsEmpty ["cdc_rsync.exe".data, ['-', '-', 'i', 'p', '='] ++ "1.2.3.4".data,
      ['-', '-', 'p', 'o', 'r', 't', '='] ++ "1234".data,
      's' :: "ource".data, 'd' :: "estination".data] =
    .ok { options := { defaultOptions with ip := some "1.2.3.4".data, port := 1234 },
          filter_rules := [], sources_dir := [], sources := ['s' :: "ource".data],
          destination := 'd' :: "estination".data } :=
  claim_C5 "cdc_rsync.exe".data "1.2.3.4".data "1234".data "ource".data
    "estination".data 's' 'd' 1234 (by decide) (by decide) (by decide)
    (by decide) (by decide)


/-- C6: parsing `--compress-level=<v>` succeeds exactly when the value
lies in [`Options.kMinCompressLevel`, `Options.kMaxCompressLevel`] =
[1, 22]; outside the range (including 0) the parse fails with exactly
the usage error about the permitted bounds. -/
theorem claim_C6 : ∀ (vs : List Char) (v : Int), parseIntL vs = some v →
    ((Options.kMinCompressLevel ≤ v ∧ v ≤ Options.kMaxCompressLevel →
      Parse fsEmpty (c6Argv vs) =
        .ok { options := { defaultOptions with
                             ip := some ['1', '.', '2', '.', '3', '.', '4'],
                             port := 1234, compress_level := v },
              filter_rules := [], sources_dir := [],
              sources := [['s', 'r', 'c']], destination := ['d', 's', 't'] }) ∧
     (v < Options.kMinCompressLevel ∨ Options.kMaxCompressLevel < v →
      Parse fsEmpty (c6Argv vs) = .error (.usage compressLevelBoundsMsg))) := by
  intro vs v hvs
  have hvs0 : vs ≠ [] := by
    intro he
    subst he
    simp [parseIntL] at hvs
  have hp1234 : parseNatL ['1', '2', '3', '4'] = some 1234 := by decide
  constructor
  · intro hin
    have hcond : ¬(v < Options.kMinCompressLevel ∨ Options.kMaxCompressLevel < v) := by
      simp only [Options.kMinCompressLevel, Options.kMaxCompressLevel] at hin ⊢
      omega
    simp only [Parse, c6Argv]
    simp [scanArgs, splitValue, isValueOptionName, isFlagName, applyValueOption,
      validate, initScanState, defaultOptions, splitLast, hvs, hvs0, hp1234, hcond]
  · intro hout
    simp only [Parse, c6Argv]
    simp [scanArgs, splitValue, isValueOptionName, isFlagName, applyValueOption,
      validate, initScanState, defaultOptions, splitLast, hvs, hvs0, hp1234, hout]

theorem claim_C6_witness :
    Parse fsEmpty (c6Argv ['2', '2']) =
      .ok { options := { defaultOptions with
                           ip := some ['1', '.', '2', '.', '3', '.', '4'],
                           port := 1234, compress_level := 22 },
            filter_rules := [], sources_dir := [],
            sources := [['s', 'r', 'c']], destination := ['d', 's', 't'] } ∧
    Parse fsEmpty (c6Argv ['0']) = .error (.usage compressLevelBoundsMsg) ∧
    Parse fsEmpty (c6Argv ['2', '3']) = .error (.usage compressLevelBoundsMsg) :=
  ⟨(claim_C6 ['2', '2'] 22 (by decide)).1 (by decide),
   (claim_C6 ['0'] 0 (by decide)).2 (by decide),
   (claim_C6 ['2', '3'] 23 (by decide)).2 (by decide)⟩


/-- C9: with `--files-from FILE` naming a readable file with at least one
non-empty line, parsing succeeds, the file's non-empty lines become the
sources, and the `relative` option is set even though `--relative`/`-R`
was not passed (`ParamsTest.FilesFrom_ImpliesRelative`); when the file
is empty, parsing fails with exactly the usage error naming the file
(`ParamsTest.FilesFrom_EmptyFile_WithoutSourceArg`). -/
theorem claim_C9 : ∀ (fs : FileSys) (f : List Char) (lines : List (List Char)),
    fs f = some lines →
    ((nonEmptyLines lines ≠ [] →
      Parse fs (c9Argv f) =
        .ok { options := { defaultOptions with
                             ip := some ['1', '.', '2', '.', '3', '.', '4'],
                             port := 1234, relative := true },
              filter_rules := [], sources_dir := [],
              sources := nonEmptyLines lines, destination := ['d', 's', 't'] }) ∧
     (nonEmptyLines lines = [] →
      Parse fs (c9Argv f) = .error (.usage (filesFromEmptyMsg f)))) := by
  intro fs f lines hfs
  have hp1234 : parseNatL ['1', '2', '3', '4'] = some 1234 := by decide
  constructor
  · intro h1
    simp only [Parse, c9Argv]
    simp [scanArgs, splitValue, isValueOptionName, isFlagName, applyValueOption,
      validate, initScanState, defaultOptions, hp1234, hfs, h1,
      Options.kMinCompressLevel, Options.kMaxCompressLevel]
  · intro h2
    simp only [Parse, c9Argv]
    simp [scanArgs, splitValue, isValueOptionName, isFlagName, applyValueOption,
      validate, initScanState, defaultOptions, hp1234, hfs, h2,
      Options.kMinCompressLevel, Options.kMaxCompressLevel]


theorem claim_C9_witness :
    Parse c9Fs (c9Argv ['f', 'f']) =
      .ok { options := { defaultOptions with
                           ip := some ['1', '.', '2', '.', '3', '.', '4'],
                           port := 1234, relative := true },
            filter_rules := [], sources_dir := [],
            sources := [['a']], destination := ['d', 's', 't'] } ∧
    Parse c9Fs (c9Argv ['e', 'e']) = .error (.usage (filesFromEmptyMsg ['e', 'e'])) :=
  ⟨(claim_C9 c9Fs ['f', 'f'] [['a']] (by decide)).1 (by decide),
   (claim_C9 c9Fs ['e', 'e'] [] (by decide)).2 (by decide)⟩
